import Mathlib

/-!
Shallow embedding of the post-inference analytics core of the geo-shift-spy
repository (src/ml_backend/services/{disaster_analyzer,multiclass_analyzer,
geospatial_processor}.py), with theorems settling the frozen claims about it.

Conventions of the embedding:
* Python floats are modelled as exact rationals (ℚ); numpy uint8 channel
  values are nonnegative rationals.
* External library calls (cv2 contour extraction, cv2.fillPoly
  rasterization, sklearn DBSCAN) are producers/consumers outside the
  repository; their outputs are taken as explicit parameters or are
  modelled from their documented behaviour, as noted at each definition.
* Fallible code is modelled with Except; everything is computable.
-/

namespace GeoShiftSpy

/-! ### disaster_analyzer.py -/

/-- Enumeration DamageZoneType from disaster_analyzer.py (the members used by
the analytics under verification). -/
inductive DamageZoneType where
  | flooded
  | burned
  | collapsed
  | debris
  | eroded
  | damaged_infrastructure
  | displaced_vegetation
deriving DecidableEq, Repr

/-- Contour data as returned by the external cv2.findContours /
cv2.contourArea / cv2.boundingRect calls inside the zone detectors: the
traced polygon area in pixels, the bounding rectangle (x, y, w, h), and the
contour vertex list.  cv2 is an external collaborator of the repository, so
its per-contour outputs enter the embedding as data. -/
structure Contour where
  area_pixels : ℚ
  bbox : ℕ × ℕ × ℕ × ℕ
  points : List (ℕ × ℕ)
deriving DecidableEq, Repr

/-- Dataclass DamageZone from disaster_analyzer.py. -/
structure DamageZone where
  zone_type : DamageZoneType
  severity : String
  bbox : ℕ × ℕ × ℕ × ℕ
  area_sq_meters : ℚ
  confidence : ℚ
  affected_structures : ℕ
  polygon_coords : Option (List (ℕ × ℕ)) := none
deriving DecidableEq, Repr

/-- DisasterAnalyzer._estimate_flood_severity: a score accumulates +2 for
area above 10000 m², else +1 for area above 1000 m², and the score is mapped
through the ≥3/≥2/≥1 tier ladder (the flood_region argument of the source is
unused by the computation). -/
def estimate_flood_severity (area_sq_meters : ℚ) : String :=
  let score : ℕ := if area_sq_meters > 10000 then 2
    else if area_sq_meters > 1000 then 1 else 0
  if score ≥ 3 then "catastrophic"
  else if score ≥ 2 then "severe"
  else if score ≥ 1 then "moderate"
  else "minor"

/-- DisasterAnalyzer._estimate_collapse_severity. -/
def estimate_collapse_severity (area_sq_meters : ℚ) : String :=
  if area_sq_meters > 5000 then "catastrophic"
  else if area_sq_meters > 1000 then "severe"
  else if area_sq_meters > 200 then "moderate"
  else "minor"

/-- Pixel predicate detect_water inside _detect_flood_zones:
water_mask = (blue > red + 20) & (blue > 100). -/
def detect_water (red blue : ℚ) : Bool :=
  decide (blue > red + 20) && decide (blue > 100)

/-- Per-pixel flood mask inside _detect_flood_zones: post-water AND NOT
pre-water (the source computes post_water > pre_water on 0/1 masks). -/
def flood_mask_pixel (preRed preBlue postRed postBlue : ℚ) : Bool :=
  detect_water postRed postBlue && !detect_water preRed preBlue

/-- Zone-construction loop of DisasterAnalyzer._detect_flood_zones over the
connected components handed back by cv2.findContours on the flood mask:
area_sq_meters = area_pixels * pixel_to_meter_ratio, contours under
100 m² are skipped with continue, and every kept contour becomes a FLOODED
zone with severity from _estimate_flood_severity and fixed confidence 0.8.
The structure count of each kept contour comes from
_count_affected_structures (cv2-based); it enters as the function
count_structures. -/
def detect_flood_zones (pixel_to_meter_ratio : ℚ)
    (count_structures : Contour → ℕ) (contours : List Contour) :
    List DamageZone :=
  contours.filterMap (fun c =>
    let area_sq_meters := c.area_pixels * pixel_to_meter_ratio
    if area_sq_meters < 100 then none
    else some
      { zone_type := DamageZoneType.flooded
        severity := estimate_flood_severity area_sq_meters
        bbox := c.bbox
        area_sq_meters := area_sq_meters
        confidence := 4/5
        affected_structures := count_structures c
        polygon_coords := some c.points })

/-! Priority-map generation (disaster_analyzer.py).  Rasters are modelled as
total pixel-valued maps ℕ × ℕ → ℕ; the source allocates an H×W uint8 array,
and all per-pixel claims are about pixels inside that array.  The pixel set
that the external cv2.fillPoly call paints for a given vertex list enters
the embedding as the function fill_set. -/

/-- Per-severity fill value of _generate_evacuation_priority_map. -/
def priority_value (severity : String) : ℕ :=
  if severity = "catastrophic" then 255
  else if severity = "severe" then 200
  else if severity = "moderate" then 150
  else 100

/-- Per-type difficulty value of _generate_relief_access_map. -/
def access_difficulty (zone_type : DamageZoneType) : ℕ :=
  if zone_type = DamageZoneType.flooded ∨ zone_type = DamageZoneType.collapsed
    then 255
  else if zone_type = DamageZoneType.debris then 200
  else 150

/-- Membership of a pixel in the numpy slice [y:y+h, x:x+w] of a bounding
box (x, y, w, h). -/
def in_bbox (bbox : ℕ × ℕ × ℕ × ℕ) (p : ℕ × ℕ) : Bool :=
  let (x, y, w, h) := bbox
  decide (x ≤ p.1) && decide (p.1 < x + w) &&
  decide (y ≤ p.2) && decide (p.2 < y + h)

/-- One loop iteration of _generate_evacuation_priority_map: when the zone
has truthy polygon coordinates (a nonempty list; Python treats None and []
alike here) the source calls cv2.fillPoly(priority_map, points, value),
which overwrites every painted pixel with value; otherwise the bbox slice
is combined with np.maximum. -/
def apply_zone_evac (fill_set : List (ℕ × ℕ) → List (ℕ × ℕ))
    (m : ℕ × ℕ → ℕ) (z : DamageZone) : ℕ × ℕ → ℕ :=
  match z.polygon_coords with
  | some (p0 :: pts) => fun p =>
      if p ∈ fill_set (p0 :: pts) then priority_value z.severity else m p
  | _ => fun p =>
      if in_bbox z.bbox p then max (m p) (priority_value z.severity) else m p

/-- DisasterAnalyzer._generate_evacuation_priority_map: raster initialised
to zero, zones applied in list order. -/
def evacuation_priority_map (fill_set : List (ℕ × ℕ) → List (ℕ × ℕ))
    (zones : List DamageZone) : ℕ × ℕ → ℕ :=
  zones.foldl (apply_zone_evac fill_set) (fun _ => 0)

/-- One loop iteration of _generate_relief_access_map: same shape as the
evacuation overlay, with the per-type difficulty value. -/
def apply_zone_access (fill_set : List (ℕ × ℕ) → List (ℕ × ℕ))
    (m : ℕ × ℕ → ℕ) (z : DamageZone) : ℕ × ℕ → ℕ :=
  match z.polygon_coords with
  | some (p0 :: pts) => fun p =>
      if p ∈ fill_set (p0 :: pts) then access_difficulty z.zone_type else m p
  | _ => fun p =>
      if in_bbox z.bbox p then max (m p) (access_difficulty z.zone_type)
      else m p

/-- DisasterAnalyzer._generate_relief_access_map: raster initialised to the
default accessible value 100, zones applied in list order. -/
def relief_access_map (fill_set : List (ℕ × ℕ) → List (ℕ × ℕ))
    (zones : List DamageZone) : ℕ × ℕ → ℕ :=
  zones.foldl (apply_zone_access fill_set) (fun _ => 100)

/-! Spectral index and ratio computations (disaster_analyzer.py) and their
denominators. -/

/-- The literal 1e-6 used as the epsilon guard in the source. -/
def eps6 : ℚ := 1 / 1000000

/-- Denominator of the water_index computation inside
_calculate_water_change: green + red + 1e-6. -/
def water_index_den (green red : ℚ) : ℚ := green + red + eps6

/-- Inner water_index of _calculate_water_change:
(green - red) / (green + red + 1e-6). -/
def water_index (green red : ℚ) : ℚ := (green - red) / water_index_den green red

/-- Denominator of the burn_ratio computation inside
_calculate_burn_signature: red + blue + 1e-6. -/
def burn_ratio_den (red blue : ℚ) : ℚ := red + blue + eps6

/-- Inner burn_ratio of _calculate_burn_signature:
(red - blue) / (red + blue + 1e-6). -/
def burn_ratio (red blue : ℚ) : ℚ := (red - blue) / burn_ratio_den red blue

/-- Denominator of post_red_ratio inside _detect_burn_zones.detect_burns:
np.sum(post, axis=2) + 1e-6, i.e. red + green + blue + 1e-6 per pixel. -/
def post_red_ratio_den (red green blue : ℚ) : ℚ := red + green + blue + eps6

/-- The post_red_ratio expression of _detect_burn_zones.detect_burns:
post[:, :, 0] / (np.sum(post, axis=2) + 1e-6). -/
def post_red_ratio (red green blue : ℚ) : ℚ :=
  red / post_red_ratio_den red green blue

/-- Arithmetic mean of a list of rationals, as computed by np.mean over an
array of the listed values. -/
def list_mean (xs : List ℚ) : ℚ := xs.sum / (xs.length : ℚ)

/-- Denominator of the vegetation_loss division in _estimate_burn_severity:
pre_green = np.mean(pre_region[:, :, 1]), with no epsilon added.  The
argument lists the green-channel values of the pre-disaster region. -/
def vegetation_loss_den (pre_greens : List ℚ) : ℚ := list_mean pre_greens

/-- The vegetation_loss expression of _estimate_burn_severity:
(pre_green - post_green) / pre_green, over region green-channel means. -/
def vegetation_loss (pre_greens post_greens : List ℚ) : ℚ :=
  (list_mean pre_greens - list_mean post_greens) / vegetation_loss_den pre_greens

/-! ### multiclass_analyzer.py -/

/-- Enumeration ChangeType from multiclass_analyzer.py. -/
inductive ChangeType where
  | deforestation
  | reforestation
  | urbanization
  | urban_decline
  | water_increase
  | water_decrease
  | barren_to_vegetation
  | vegetation_to_barren
  | disaster_damage
  | recovery
  | no_change
deriving DecidableEq, Repr

/-- Class-id to class-name table LAND_COVER_CLASSES, with the .get default
"unknown" used at the lookup sites. -/
def land_cover_class (id : ℕ) : String :=
  if id = 0 then "water"
  else if id = 1 then "forest"
  else if id = 2 then "urban"
  else if id = 3 then "agriculture"
  else if id = 4 then "barren"
  else if id = 5 then "grassland"
  else if id = 6 then "wetland"
  else if id = 7 then "ice_snow"
  else "unknown"

/-- Static transition table CHANGE_RULES: (before name, after name) to
change type, none when the pair is unmapped. -/
def change_rules : String × String → Option ChangeType
  | ("forest", "urban") => some ChangeType.urbanization
  | ("forest", "barren") => some ChangeType.deforestation
  | ("forest", "agriculture") => some ChangeType.deforestation
  | ("urban", "barren") => some ChangeType.disaster_damage
  | ("urban", "water") => some ChangeType.disaster_damage
  | ("barren", "forest") => some ChangeType.reforestation
  | ("barren", "urban") => some ChangeType.urbanization
  | ("barren", "water") => some ChangeType.water_increase
  | ("water", "barren") => some ChangeType.water_decrease
  | ("water", "urban") => some ChangeType.urbanization
  | ("agriculture", "urban") => some ChangeType.urbanization
  | ("agriculture", "barren") => some ChangeType.vegetation_to_barren
  | ("barren", "agriculture") => some ChangeType.barren_to_vegetation
  | ("grassland", "urban") => some ChangeType.urbanization
  | ("grassland", "barren") => some ChangeType.vegetation_to_barren
  | _ => none

/-- The largest value of a list of naturals (0 for the empty list). -/
def max_list (xs : List ℕ) : ℕ := xs.foldl max 0

/-- np.bincount(xs).argmax() for a nonempty array of nonnegative ints: over
the indices 0 .. max xs, the first index whose count in xs is maximal.
argmax keeps the earlier index on ties, so the fold replaces only on a
strictly larger count.  On the empty list the source raises; the model
returns 0 and every theorem about it assumes a nonempty input. -/
def bincount_argmax (xs : List ℕ) : ℕ :=
  (List.range (max_list xs + 1)).foldl
    (fun best i => if xs.count i > xs.count best then i else best) 0

/-- Boolean-mask extraction before_seg[region_mask]: the row-major list of
grid values at the true positions of the mask. -/
def masked_vals (grid : List (List ℕ)) (mask : List (List Bool)) : List ℕ :=
  ((grid.zip mask).map (fun rm =>
    (rm.1.zip rm.2).filterMap (fun vb => if vb.2 then some vb.1 else none))).flatten

/-- MultiClassAnalyzer._is_disaster_pattern: class-frequency fractions over
the region via np.bincount(_, minlength=8)/len; disaster when the barren
(index 4) or water (index 0) fraction grew by more than 0.3. -/
def is_disaster_pattern (before_classes after_classes : List ℕ) : Bool :=
  let before_pct : ℕ → ℚ := fun c =>
    (before_classes.count c : ℚ) / (before_classes.length : ℚ)
  let after_pct : ℕ → ℚ := fun c =>
    (after_classes.count c : ℚ) / (after_classes.length : ℚ)
  let barren_increase := after_pct 4 - before_pct 4
  let water_increase := after_pct 0 - before_pct 0
  decide (barren_increase > 3/10) || decide (water_increase > 3/10)

/-- Core of MultiClassAnalyzer._classify_region_change on the two masked
class arrays: dominant class of each side via np.bincount().argmax(), the
names looked up in the transition table, with the disaster-pattern /
no-change fallback for unmapped pairs. -/
def classify_vals (before_classes after_classes : List ℕ) : ChangeType :=
  let before_dominant := bincount_argmax before_classes
  let after_dominant := bincount_argmax after_classes
  let transition := (land_cover_class before_dominant,
    land_cover_class after_dominant)
  match change_rules transition with
  | some t => t
  | none =>
      if is_disaster_pattern before_classes after_classes
      then ChangeType.disaster_damage
      else ChangeType.no_change

/-- MultiClassAnalyzer._classify_region_change: extract the region-masked
class arrays of both grids, then classify. -/
def classify_region_change (before_seg after_seg : List (List ℕ))
    (region_mask : List (List Bool)) : ChangeType :=
  classify_vals (masked_vals before_seg region_mask)
    (masked_vals after_seg region_mask)

/-- MultiClassAnalyzer._estimate_confidence on the two masked class arrays:
per-side consistency = fraction of pixels equal to the side's mode, the
average of the two consistencies clamped into [0.3, 0.95] by
min(0.95, max(0.3, _)). -/
def estimate_confidence (before_region after_region : List ℕ) : ℚ :=
  let before_mode := bincount_argmax before_region
  let after_mode := bincount_argmax after_region
  let before_consistency : ℚ :=
    (before_region.count before_mode : ℚ) / (before_region.length : ℚ)
  let after_consistency : ℚ :=
    (after_region.count after_mode : ℚ) / (after_region.length : ℚ)
  min (19/20) (max (3/10) ((before_consistency + after_consistency) / 2))

/-- MultiClassAnalyzer._calculate_severity: integer score from area tier,
change-type set membership, and confidence, mapped to the four level
names. -/
def calculate_severity (change_type : ChangeType) (area_hectares : ℚ)
    (confidence : ℚ) : String :=
  let area_score : ℕ := if area_hectares > 1000 then 3
    else if area_hectares > 100 then 2
    else if area_hectares > 10 then 1 else 0
  let type_score : ℕ :=
    if change_type = ChangeType.deforestation ∨
       change_type = ChangeType.disaster_damage ∨
       change_type = ChangeType.water_decrease then 2
    else if change_type = ChangeType.urbanization ∨
       change_type = ChangeType.vegetation_to_barren then 1
    else 0
  let conf_score : ℕ := if confidence > 4/5 then 1 else 0
  let severity_score := area_score + type_score + conf_score
  if severity_score ≥ 5 then "critical"
  else if severity_score ≥ 3 then "high"
  else if severity_score ≥ 2 then "medium"
  else "low"

/-- Dataclass ChangeDetection from multiclass_analyzer.py. -/
structure ChangeDetection where
  change_type : ChangeType
  confidence : ℚ
  bbox : ℕ × ℕ × ℕ × ℕ
  area_hectares : ℚ
  severity : String
deriving DecidableEq, Repr

/-- Connected-component region as handed back by the external
cv2.connectedComponentsWithStats call: the list of its pixel positions
(x, y).  CC_STAT_AREA is the pixel count and the CC stats bounding box is
the min/max extent of the positions. -/
abbrev Region : Type := List (ℕ × ℕ)

/-- Value of a row-major grid at position (x, y), as numpy indexing
grid[y][x]. -/
def grid_at (grid : List (List ℕ)) (p : ℕ × ℕ) : ℕ :=
  (grid.getD p.2 []).getD p.1 0

/-- The class values of a grid over a region's pixel positions. -/
def region_vals (grid : List (List ℕ)) (r : Region) : List ℕ :=
  List.map (grid_at grid) r

/-- Bounding box (CC_STAT_LEFT, CC_STAT_TOP, CC_STAT_WIDTH, CC_STAT_HEIGHT)
of a region: min/max extent of its positions. -/
def region_bbox (r : Region) : ℕ × ℕ × ℕ × ℕ :=
  match r with
  | [] => (0, 0, 0, 0)
  | p :: ps =>
      let xmin := (List.map Prod.fst ps).foldl min p.1
      let xmax := (List.map Prod.fst ps).foldl max p.1
      let ymin := (List.map Prod.snd ps).foldl min p.2
      let ymax := (List.map Prod.snd ps).foldl max p.2
      (xmin, ymin, xmax - xmin + 1, ymax - ymin + 1)

/-- Loop body of MultiClassAnalyzer._detect_change_regions for one
connected component. -/
def detection_of_region (before_seg after_seg : List (List ℕ))
    (confidence_scores : Option (ℕ × ℕ → ℚ)) (pixel_to_hectare_ratio : ℚ)
    (r : Region) : ChangeDetection :=
  let area_hectares := ((List.length r : ℕ) : ℚ) * pixel_to_hectare_ratio
  let before_region := region_vals before_seg r
  let after_region := region_vals after_seg r
  let change_type := classify_vals before_region after_region
  let region_confidence : ℚ :=
    match confidence_scores with
    | some conf => list_mean (List.map conf r)
    | none => estimate_confidence before_region after_region
  { change_type := change_type
    confidence := region_confidence
    bbox := region_bbox r
    area_hectares := area_hectares
    severity := calculate_severity change_type area_hectares region_confidence }

/-- MultiClassAnalyzer._detect_change_regions over the connected components
of the change map (the components themselves come from the external
cv2.connectedComponentsWithStats call): components whose area in hectares
falls below 0.1 are skipped with continue, every other component becomes a
ChangeDetection. -/
def detect_change_regions (before_seg after_seg : List (List ℕ))
    (confidence_scores : Option (ℕ × ℕ → ℚ)) (pixel_to_hectare_ratio : ℚ)
    (regions : List Region) : List ChangeDetection :=
  regions.filterMap (fun r =>
    if ((List.length r : ℕ) : ℚ) * pixel_to_hectare_ratio < 1/10 then none
    else some (detection_of_region before_seg after_seg confidence_scores
      pixel_to_hectare_ratio r))

/-! Change-map construction (multiclass_analyzer.py) under numpy
broadcasting. -/

/-- A 2-D numpy array of class ids: shape (rows, cols) and a value
function. -/
structure NpGrid where
  rows : ℕ
  cols : ℕ
  val : ℕ → ℕ → ℕ

/-- Numpy broadcast compatibility of two 2-D shapes: each dimension pair
must be equal or contain a 1. -/
def broadcast_compatible (s1 s2 : ℕ × ℕ) : Bool :=
  (decide (s1.1 = s2.1) || decide (s1.1 = 1) || decide (s2.1 = 1)) &&
  (decide (s1.2 = s2.2) || decide (s1.2 = 1) || decide (s2.2 = 1))

/-- Index into a broadcast dimension: a dimension of extent 1 is read at 0. -/
def bcast_idx (extent i : ℕ) : ℕ := if extent = 1 then 0 else i

/-- MultiClassAnalyzer._generate_change_map:
(before != after).astype(np.uint8).  The source contains no shape check of
its own; the numpy != operator broadcasts compatible shapes element-wise
and raises its generic ValueError (operands could not be broadcast
together) on incompatible shapes, which the model renders as Except. -/
def generate_change_map (before after : NpGrid) : Except String NpGrid :=
  if broadcast_compatible (before.rows, before.cols) (after.rows, after.cols)
  then Except.ok
    { rows := max before.rows after.rows
      cols := max before.cols after.cols
      val := fun i j =>
        if before.val (bcast_idx before.rows i) (bcast_idx before.cols j)
          ≠ after.val (bcast_idx after.rows i) (bcast_idx after.cols j)
        then 1 else 0 }
  else Except.error "operands could not be broadcast together"

/-! ### geospatial_processor.py -/

/-- Dataclass GeoBounds. -/
structure GeoBounds where
  north : ℚ
  south : ℚ
  east : ℚ
  west : ℚ
deriving DecidableEq, Repr

/-- GeospatialProcessor._create_pixel_to_geo_transformer, applied: pixel
(x, y) on an image of the given height and width maps to (latitude,
longitude) via the normalised coordinates norm_x = x / width and
norm_y = 1 - y / height (flipped Y axis), linearly interpolated across the
bounds.  The source returns the pair (latitude, longitude) in that order. -/
def pixel_to_geo (height width : ℚ) (b : GeoBounds) (x y : ℚ) : ℚ × ℚ :=
  let norm_x := x / width
  let norm_y := 1 - y / height
  let longitude := b.west + norm_x * (b.east - b.west)
  let latitude := b.south + norm_y * (b.north - b.south)
  (latitude, longitude)

/-- The algebraic inverse of pixel_to_geo named by the spec (not a function
of the source): x = width * (lon - west) / (east - west),
y = height * (1 - (lat - south) / (north - south)). -/
def geo_to_pixel (height width : ℚ) (b : GeoBounds) (lat lon : ℚ) : ℚ × ℚ :=
  (width * (lon - b.west) / (b.east - b.west),
   height * (1 - (lat - b.south) / (b.north - b.south)))

/-- A change detection as consumed by cluster_nearby_changes: the attribute
set the function reads (change_type already as its string value, bbox with
rational coordinates so the source's w/2 centre arithmetic is exact). -/
structure ClusterInput where
  change_type : String
  severity : String
  area_hectares : ℚ
  confidence : ℚ
  bbox : ℚ × ℚ × ℚ × ℚ
deriving DecidableEq, Repr

/-- Centre point of a detection's bounding box:
(x + w / 2, y + h / 2). -/
def bbox_center (d : ClusterInput) : ℚ × ℚ :=
  let (x, y, w, h) := d.bbox
  (x + w / 2, y + h / 2)

/-- Euclidean proximity of two points within eps, compared on squares so
the model stays inside ℚ. -/
def within_eps (eps : ℚ) (p q : ℚ × ℚ) : Bool :=
  decide ((p.1 - q.1) * (p.1 - q.1) + (p.2 - q.2) * (p.2 - q.2) ≤ eps * eps)

/-- One step of minimum-label propagation along the eps-proximity graph of
the point list: every point takes the least current label among itself and
its eps-neighbours. -/
def dbscan_step (pts : List (ℚ × ℚ)) (eps : ℚ) (labels : List ℕ) : List ℕ :=
  (List.range pts.length).map (fun i =>
    ((List.range pts.length).filterMap (fun j =>
      if within_eps eps (pts.getD i (0, 0)) (pts.getD j (0, 0))
      then some (labels.getD j i) else none)).foldl min (labels.getD i i))

/-- Iterated minimum-label propagation, starting from the identity
labelling 0 .. n-1. -/
def dbscan_iter (pts : List (ℚ × ℚ)) (eps : ℚ) : ℕ → List ℕ
  | 0 => List.range pts.length
  | k + 1 => dbscan_step pts eps (dbscan_iter pts eps k)

/-- Modelled from the documented behaviour of the external
sklearn.cluster.DBSCAN at the hard-coded min_samples = 1 of
cluster_nearby_changes: with min_samples = 1 every point is a core point
(each point has itself within eps), so no point is labelled noise (-1) and
the clusters are exactly the connected components of the eps-proximity
graph.  The model labels each point with the least index of its component,
computed by iterating minimum-label propagation length-many times; every
label is a natural number by construction. -/
def dbscan_labels (pts : List (ℚ × ℚ)) (eps : ℚ) : List ℕ :=
  dbscan_iter pts eps pts.length

/-- The distinct elements of a list in order of first occurrence, matching
the key order of a Python dict filled by first insertion. -/
def first_occur {α : Type} [DecidableEq α] : List α → List α
  | [] => []
  | a :: l => a :: (first_occur l).filter (fun x => x ≠ a)

/-- Python max(iterable, key = f) semantics on a head element and the rest
of the iterable: the first element attaining the greatest key (a later
element replaces the running best only on a strictly greater key). -/
def py_max_by {α : Type} (f : α → ℕ) (best : α) : List α → α
  | [] => best
  | x :: xs => py_max_by f (if f x > f best then x else best) xs

/-- Rank of a severity name in severity_order = [low, medium, high,
critical], with severity_order.index guarded by the source to 0 for names
outside the list. -/
def severity_rank (s : String) : ℕ :=
  if s = "low" then 0
  else if s = "medium" then 1
  else if s = "high" then 2
  else if s = "critical" then 3
  else 0

/-- The cluster branch's max(severities, key = rank): first severity of
greatest rank.  Empty input never occurs in the source (clusters are
nonempty); the model returns the empty string there. -/
def max_severity_of (severities : List String) : String :=
  match severities with
  | [] => ""
  | s :: ss => py_max_by severity_rank s ss

/-- The cluster branch's dominant type
max(set(change_types), key = change_types.count): a change type of greatest
multiplicity.  The iteration order of a Python set is unspecified, so only
order-independent facts (membership, maximality of the count) are
meaningful; the model iterates the distinct types in first-occurrence
order. -/
def dominant_type_of (change_types : List String) : String :=
  match first_occur change_types with
  | [] => ""
  | t :: ts => py_max_by (fun x => change_types.count x) t ts

/-- One clustered change group as assembled by cluster_nearby_changes. -/
structure ClusterGroup where
  group_type : String
  detections : List ClusterInput
  count : ℕ
  dominant_change_type : String
  total_area_hectares : ℚ
  max_severity : String
  avg_confidence : ℚ
deriving DecidableEq, Repr

/-- The individual branch of cluster_nearby_changes for one noise
detection. -/
def individual_group (d : ClusterInput) : ClusterGroup :=
  { group_type := "individual"
    detections := [d]
    count := 1
    dominant_change_type := d.change_type
    total_area_hectares := d.area_hectares
    max_severity := d.severity
    avg_confidence := d.confidence }

/-- The cluster branch of cluster_nearby_changes for one label's member
list. -/
def cluster_group (members : List ClusterInput) : ClusterGroup :=
  { group_type := "cluster"
    detections := members
    count := members.length
    dominant_change_type := dominant_type_of (members.map (fun d => d.change_type))
    total_area_hectares := (members.map (fun d => d.area_hectares)).sum
    max_severity := max_severity_of (members.map (fun d => d.severity))
    avg_confidence := (members.map (fun d => d.confidence)).sum
      / (members.length : ℚ) }

/-- Grouping-and-summary tail of cluster_nearby_changes for a given DBSCAN
label vector: detections are grouped by label into a dict in
first-occurrence key order; label -1 emits one individual group per member,
every other label emits one cluster group. -/
def cluster_summaries (dets : List ClusterInput) (labels : List ℤ) :
    List ClusterGroup :=
  let pairs := labels.zip dets
  (first_occur labels).flatMap (fun l =>
    let members := (pairs.filter (fun p => p.1 = l)).map Prod.snd
    if l = -1 then members.map individual_group
    else [cluster_group members])

/-- GeospatialProcessor.cluster_nearby_changes: empty input short-circuits
to the empty list; otherwise the bbox centres are clustered by the external
sklearn DBSCAN with eps = max_distance_meters / 10 and min_samples = 1
(modelled by dbscan_labels) and the labels are folded into group
summaries. -/
def cluster_nearby_changes (dets : List ClusterInput)
    (max_distance_meters : ℚ) : List ClusterGroup :=
  if dets = [] then []
  else
    let max_distance_pixels := max_distance_meters / 10
    let labels := dbscan_labels (dets.map bbox_center) max_distance_pixels
    cluster_summaries dets (labels.map Int.ofNat)

/-! ### Concrete instances used by counterexamples and witnesses -/

/-- A contour of 40000 pixels of traced area (a 200-by-200-pixel flooded
region at pixel_to_meter_ratio 1), as in scenario C of the spec. -/
def c40000 : Contour :=
  { area_pixels := 40000, bbox := (0, 0, 200, 200), points := [(0, 0)] }

/-- Flood zones detected for the single scenario-C contour. -/
def flood_demo : List DamageZone := detect_flood_zones 1 (fun _ => 0) [c40000]

/-- Placeholder zone for headD. -/
def zone_default : DamageZone :=
  { zone_type := DamageZoneType.flooded, severity := "", bbox := (0, 0, 0, 0)
    area_sq_meters := 0, confidence := 0, affected_structures := 0 }

/-- The scenario-C flood zone. -/
def flood_demo_zone : DamageZone := flood_demo.headD zone_default

/-- A 2-by-3 label grid. -/
def g23 : NpGrid := { rows := 2, cols := 3, val := fun i j => i + j }

/-- A 1-by-3 label grid: its shape differs from g23 but broadcasts
against it. -/
def g13 : NpGrid := { rows := 1, cols := 3, val := fun _ j => j }

/-- A catastrophic flooded zone whose polygon rasterizes to pixel (0, 0). -/
def zone_cat : DamageZone :=
  { zone_type := DamageZoneType.flooded, severity := "catastrophic"
    bbox := (0, 0, 1, 1), area_sq_meters := 20000, confidence := 4/5
    affected_structures := 0, polygon_coords := some [(0, 0)] }

/-- A minor eroded zone whose polygon also rasterizes to pixel (0, 0). -/
def zone_min : DamageZone :=
  { zone_type := DamageZoneType.eroded, severity := "minor"
    bbox := (0, 0, 1, 1), area_sq_meters := 10, confidence := 4/5
    affected_structures := 0, polygon_coords := some [(0, 0)] }

/-- A zone without polygon coordinates, filled from its bounding box. -/
def zone_box : DamageZone :=
  { zone_type := DamageZoneType.debris, severity := "moderate"
    bbox := (0, 0, 2, 2), area_sq_meters := 4, confidence := 3/5
    affected_structures := 0, polygon_coords := none }

/-- Rasterization of a degenerate one-point polygon by cv2.fillPoly: the
single named pixel is painted. -/
def point_fill : List (ℕ × ℕ) → List (ℕ × ℕ) := fun pts => pts

/-- Demo detection a. -/
def det_a : ClusterInput :=
  { change_type := "deforestation", severity := "high", area_hectares := 2
    confidence := 1/2, bbox := (0, 0, 2, 2) }

/-- Demo detection b, whose bbox centre is within 100 pixels of det_a's. -/
def det_b : ClusterInput :=
  { change_type := "urbanization", severity := "low", area_hectares := 3
    confidence := 1, bbox := (1, 0, 2, 2) }

/-- Clustered groups of the two demo detections at 1000 m. -/
def cluster_demo : List ClusterGroup := cluster_nearby_changes [det_a, det_b] 1000

/-- Placeholder group for headD. -/
def group_default : ClusterGroup :=
  { group_type := "", detections := [], count := 0, dominant_change_type := ""
    total_area_hectares := 0, max_severity := "", avg_confidence := 0 }

/-- The single demo cluster group. -/
def cluster_demo_group : ClusterGroup := cluster_demo.headD group_default

/-- The scenario-E bounds: north 40, south 39, east -73, west -74. -/
def bounds_ne : GeoBounds := { north := 40, south := 39, east := -73, west := -74 }

/-- The single flood zone the scenario-C contour produces. -/
def zone_severe : DamageZone :=
  { zone_type := DamageZoneType.flooded, severity := "severe"
    bbox := (0, 0, 200, 200), area_sq_meters := 40000, confidence := 4/5
    affected_structures := 0, polygon_coords := some [(0, 0)] }

/-! ## Theorems -/

/-- Closed form of _estimate_flood_severity: the score reaches 2 at most,
so the realised tiers are severe / moderate / minor. -/
theorem estimate_flood_severity_spec (a : ℚ) :
    estimate_flood_severity a =
      (if 10000 < a then "severe" else if 1000 < a then "moderate"
       else "minor") := by
  unfold estimate_flood_severity
  by_cases h1 : a > 10000
  · norm_num [h1]
  · by_cases h2 : a > 1000
    · norm_num [h1, h2]
    · norm_num [h1, h2]

/-- Evaluation of the scenario-C flood detection. -/
theorem flood_demo_eq : flood_demo = [zone_severe] := by
  simp only [flood_demo, detect_flood_zones, c40000, List.filterMap, zone_severe]
  norm_num [estimate_flood_severity]

/-- C1 counterexample.  The claim says a flooded zone of 40000 square
meters (pixel_to_meter_ratio = 1) has severity "catastrophic"; on the code
the scenario-C contour yields exactly one zone and its severity is
"severe". -/
theorem C1_counterexample :
    flood_demo.map (fun z => z.severity) = ["severe"] ∧
    "severe" ≠ "catastrophic" := by
  rw [flood_demo_eq]
  exact ⟨rfl, by decide⟩

/-- C1 amended.  Every zone produced by the flood detector carries the
severity computed by _estimate_flood_severity from its area, and the
realised tiers are: area above 10000 m² gives "severe", area in
(1000, 10000] gives "moderate", area at most 1000 gives "minor";
"catastrophic" is unreachable (the score never reaches 3). -/
theorem C1_flood_severity (pixel_to_meter_ratio : ℚ)
    (count_structures : Contour → ℕ) (contours : List Contour)
    (z : DamageZone)
    (hz : z ∈ detect_flood_zones pixel_to_meter_ratio count_structures contours) :
    z.severity = estimate_flood_severity z.area_sq_meters ∧
    (10000 < z.area_sq_meters → z.severity = "severe") ∧
    (1000 < z.area_sq_meters → z.area_sq_meters ≤ 10000 → z.severity = "moderate") ∧
    (z.area_sq_meters ≤ 1000 → z.severity = "minor") ∧
    z.severity ≠ "catastrophic" := by
  rcases List.mem_filterMap.mp hz with ⟨c, _, hc⟩
  by_cases hlt : c.area_pixels * pixel_to_meter_ratio < 100
  · rw [if_pos hlt] at hc
    exact absurd hc (by simp)
  · rw [if_neg hlt] at hc
    injection hc with hzz
    subst hzz
    refine ⟨rfl, ?_, ?_, ?_, ?_⟩
    · intro h
      show estimate_flood_severity (c.area_pixels * pixel_to_meter_ratio) = "severe"
      rw [estimate_flood_severity_spec, if_pos h]
    · intro h1 h2
      show estimate_flood_severity (c.area_pixels * pixel_to_meter_ratio) = "moderate"
      have h3 : ¬ 10000 < c.area_pixels * pixel_to_meter_ratio := by
        exact not_lt.mpr h2
      rw [estimate_flood_severity_spec, if_neg h3, if_pos h1]
    · intro h
      show estimate_flood_severity (c.area_pixels * pixel_to_meter_ratio) = "minor"
      have h3 : ¬ 10000 < c.area_pixels * pixel_to_meter_ratio := by
        intro hx; linarith
      have h4 : ¬ 1000 < c.area_pixels * pixel_to_meter_ratio := not_lt.mpr h
      rw [estimate_flood_severity_spec, if_neg h3, if_neg h4]
    · show estimate_flood_severity (c.area_pixels * pixel_to_meter_ratio) ≠ "catastrophic"
      rw [estimate_flood_severity_spec]
      split_ifs <;> decide

/-- C1 witness: the amended theorem applied to the scenario-C zone. -/
theorem C1_flood_severity_witness :
    flood_demo_zone.severity ≠ "catastrophic" :=
  (C1_flood_severity 1 (fun _ => 0) [c40000] flood_demo_zone
    (by rw [show detect_flood_zones 1 (fun _ => 0) [c40000] = [zone_severe]
          from flood_demo_eq,
        show flood_demo_zone = zone_severe by
          simp only [flood_demo_zone, flood_demo_eq]; rfl]
        exact List.mem_singleton_self _)).2.2.2.2

/-- C2 counterexample.  The claim says the change-map construction fails
with a ShapeMismatch error whenever the grid dimensions differ; on the code
the 2-by-3 and 1-by-3 grids have different shapes, yet the change map is
produced successfully (numpy silently broadcasts the row dimension). -/
theorem C2_counterexample :
    (generate_change_map g23 g13).isOk = true ∧
    (g23.rows, g23.cols) ≠ (g13.rows, g13.cols) := by
  constructor
  · rfl
  · decide

/-- C2 amended.  _generate_change_map performs no shape check of its own:
it succeeds exactly when the two shapes are numpy-broadcast-compatible
(shape equality is not required), and on success the change map has the
broadcast shape with the element-wise inequality values; incompatible
shapes fail with numpy's generic broadcasting error, not a dedicated
ShapeMismatch. -/
theorem C2_broadcast (before after : NpGrid) :
    ((generate_change_map before after).isOk = true ↔
      broadcast_compatible (before.rows, before.cols)
        (after.rows, after.cols) = true) ∧
    (∀ g, generate_change_map before after = Except.ok g →
      g.rows = max before.rows after.rows ∧
      g.cols = max before.cols after.cols ∧
      ∀ i j, g.val i j =
        if before.val (bcast_idx before.rows i) (bcast_idx before.cols j)
          ≠ after.val (bcast_idx after.rows i) (bcast_idx after.cols j)
        then 1 else 0) := by
  by_cases h : broadcast_compatible (before.rows, before.cols)
      (after.rows, after.cols) = true
  · refine ⟨iff_of_true ?_ h, ?_⟩
    · unfold generate_change_map
      rw [if_pos h]
      rfl
    · intro g hg
      unfold generate_change_map at hg
      rw [if_pos h] at hg
      injection hg with hgg
      subst hgg
      exact ⟨rfl, rfl, fun i j => rfl⟩
  · refine ⟨iff_of_false ?_ h, ?_⟩
    · unfold generate_change_map
      rw [if_neg h]
      simp [Except.isOk, Except.toBool]
    · intro g hg
      unfold generate_change_map at hg
      rw [if_neg h] at hg
      exact absurd hg (by simp)

/-- C2 witness: the amended theorem applied to the concrete
broadcast-compatible pair of different shapes. -/
theorem C2_broadcast_witness :
    (generate_change_map g23 g13).isOk = true :=
  (C2_broadcast g23 g13).1.mpr (by decide)

/-- C3 counterexample.  The claim says overlapping zones always combine by
pixel-wise maximum, whether filled from polygon or bounding box; on the
code a polygon-filled zone overwrites.  Writing the minor zone after the
catastrophic zone lowers pixel (0, 0) of the evacuation raster from 255 to
100. -/
theorem C3_counterexample :
    evacuation_priority_map point_fill [zone_cat] (0, 0) = 255 ∧
    evacuation_priority_map point_fill [zone_cat, zone_min] (0, 0) = 100 ∧
    (100 : ℕ) < 255 := by
  refine ⟨rfl, rfl, by decide⟩

/-- C3 amended.  The fill values follow the claimed severity and type
tables and the background values are 0 (priority) and 100 (access); a zone
without polygon coordinates is max-combined over its bounding box and never
decreases any pixel; but a zone with polygon coordinates overwrites every
pixel of its cv2.fillPoly set with its own value (which can decrease a
pixel) and leaves all other pixels unchanged. -/
theorem C3_overlay (fs : List (ℕ × ℕ) → List (ℕ × ℕ)) (m : ℕ × ℕ → ℕ)
    (z : DamageZone) (p : ℕ × ℕ) :
    (priority_value "catastrophic" = 255 ∧ priority_value "severe" = 200 ∧
      priority_value "moderate" = 150 ∧ priority_value "minor" = 100) ∧
    (access_difficulty DamageZoneType.flooded = 255 ∧
      access_difficulty DamageZoneType.collapsed = 255 ∧
      access_difficulty DamageZoneType.debris = 200 ∧
      access_difficulty DamageZoneType.eroded = 150) ∧
    (evacuation_priority_map fs [] p = 0 ∧ relief_access_map fs [] p = 100) ∧
    (∀ zones, evacuation_priority_map fs (zones ++ [z]) p =
        apply_zone_evac fs (evacuation_priority_map fs zones) z p ∧
      relief_access_map fs (zones ++ [z]) p =
        apply_zone_access fs (relief_access_map fs zones) z p) ∧
    (z.polygon_coords = none ∨ z.polygon_coords = some [] →
      m p ≤ apply_zone_evac fs m z p ∧ m p ≤ apply_zone_access fs m z p) ∧
    (∀ p0 pts, z.polygon_coords = some (p0 :: pts) →
      apply_zone_evac fs m z p =
        (if p ∈ fs (p0 :: pts) then priority_value z.severity else m p) ∧
      apply_zone_access fs m z p =
        (if p ∈ fs (p0 :: pts) then access_difficulty z.zone_type else m p)) := by
  refine ⟨⟨rfl, rfl, rfl, rfl⟩, ⟨rfl, rfl, rfl, rfl⟩, ⟨rfl, rfl⟩, ?_, ?_, ?_⟩
  · intro zones
    constructor
    · simp [evacuation_priority_map, List.foldl_append]
    · simp [relief_access_map, List.foldl_append]
  · intro hne
    rcases hne with hnone | hnil
    · unfold apply_zone_evac apply_zone_access
      rw [hnone]
      constructor
      · by_cases hb : in_bbox z.bbox p = true <;> simp [hb]
      · by_cases hb : in_bbox z.bbox p = true <;> simp [hb]
    · unfold apply_zone_evac apply_zone_access
      rw [hnil]
      constructor
      · by_cases hb : in_bbox z.bbox p = true <;> simp [hb]
      · by_cases hb : in_bbox z.bbox p = true <;> simp [hb]
  · intro p0 pts hsome
    unfold apply_zone_evac apply_zone_access
    rw [hsome]
    exact ⟨rfl, rfl⟩

/-- C3 witness: a bounding-box zone never lowers a pixel, at a concrete
raster and zone. -/
theorem C3_overlay_witness :
    (fun _ => 7 : ℕ × ℕ → ℕ) (0, 0) ≤
      apply_zone_evac point_fill (fun _ => 7) zone_box (0, 0) :=
  ((C3_overlay point_fill (fun _ => 7) zone_box (0, 0)).2.2.2.2.1
    (Or.inl rfl)).1

/-- C5.  The pixel-to-geo transformer realises exactly the linear
equirectangular formulas lon = west + (x/W)(east - west) and
lat = south + (1 - y/H)(north - south), and pixel (0, 0) of a 100-by-100
image with bounds north 40, south 39, east -73, west -74 maps to latitude
40 and longitude -74 (the north-west corner). -/
theorem C5_pixel_to_geo (height width : ℚ) (b : GeoBounds) (x y : ℚ)
    (hh : 0 < height) (hw : 0 < width) :
    pixel_to_geo height width b x y =
      (b.south + (1 - y / height) * (b.north - b.south),
        b.west + (x / width) * (b.east - b.west)) ∧
    pixel_to_geo 100 100 bounds_ne 0 0 = (40, -74) := by
  constructor
  · rfl
  · norm_num [pixel_to_geo, bounds_ne]

/-- C5 witness: the theorem applied to the scenario-E input. -/
theorem C5_pixel_to_geo_witness :
    pixel_to_geo 100 100 bounds_ne 0 0 = (40, -74) :=
  (C5_pixel_to_geo 100 100 bounds_ne 0 0 (by norm_num) (by norm_num)).2

/-- C9 counterexample.  The claim says every division of the index/ratio
computations is epsilon-guarded; the vegetation-loss denominator is the
bare mean of the pre-region green channel, which is 0 (not bounded below by
any epsilon) for the valid all-zero green channel [0]. -/
theorem C9_counterexample :
    vegetation_loss_den [0] = 0 ∧ (∀ g ∈ [(0 : ℚ)], 0 ≤ g) ∧
    ¬ 0 < vegetation_loss_den [0] := by
  refine ⟨by norm_num [vegetation_loss_den, list_mean], by simp, ?_⟩
  norm_num [vegetation_loss_den, list_mean]

/-- C9 amended.  The water-index, burn-ratio and post-red-ratio
denominators are guarded by the epsilon 1e-6 and are at least eps6 (hence
strictly positive) for all nonnegative channel values; the vegetation-loss
denominator is the unguarded pre-region green mean and equals 0 on every
all-zero green region. -/
theorem C9_epsilon_guards (green red blue : ℚ)
    (hg : 0 ≤ green) (hr : 0 ≤ red) (hb : 0 ≤ blue) :
    (eps6 ≤ water_index_den green red ∧ 0 < water_index_den green red) ∧
    (eps6 ≤ burn_ratio_den red blue ∧ 0 < burn_ratio_den red blue) ∧
    (eps6 ≤ post_red_ratio_den red green blue ∧
      0 < post_red_ratio_den red green blue) ∧
    (∀ n : ℕ, vegetation_loss_den (List.replicate n 0) = 0) := by
  have he : (0 : ℚ) < eps6 := by norm_num [eps6]
  refine ⟨⟨?_, ?_⟩, ⟨?_, ?_⟩, ⟨?_, ?_⟩, ?_⟩
  · unfold water_index_den; linarith
  · unfold water_index_den; linarith
  · unfold burn_ratio_den; linarith
  · unfold burn_ratio_den; linarith
  · unfold post_red_ratio_den; linarith
  · unfold post_red_ratio_den; linarith
  · intro n
    simp [vegetation_loss_den, list_mean, List.sum_replicate]

/-- C9 witness: the amended theorem at the all-zero pixel. -/
theorem C9_epsilon_guards_witness :
    eps6 ≤ water_index_den 0 0 ∧ 0 < water_index_den 0 0 :=
  (C9_epsilon_guards 0 0 0 le_rfl le_rfl le_rfl).1


/-- Unfolding of the disaster-pattern test to the two fraction-increase
comparisons of the source. -/
theorem is_disaster_pattern_iff (bv av : List ℕ) :
    is_disaster_pattern bv av = true ↔
      ((av.count 4 : ℚ) / (av.length : ℚ) -
          (bv.count 4 : ℚ) / (bv.length : ℚ) > 3/10 ∨
        (av.count 0 : ℚ) / (av.length : ℚ) -
          (bv.count 0 : ℚ) / (bv.length : ℚ) > 3/10) := by
  simp [is_disaster_pattern]

/-- C4.  _classify_region_change returns the transition-table entry of the
dominant before/after class pair when the pair is mapped; on an unmapped
pair it returns DISASTER_DAMAGE exactly when the barren (class 4) or water
(class 0) fraction over the region grew by more than 0.3, and NO_CHANGE
otherwise.  It is a deterministic pure function of the two masked label
sub-grids and the fixed rule table by construction. -/
theorem C4_classify_region_change (bseg aseg : List (List ℕ))
    (mask : List (List Bool))
    (hb : masked_vals bseg mask ≠ []) (ha : masked_vals aseg mask ≠ []) :
    (∀ t, change_rules
        (land_cover_class (bincount_argmax (masked_vals bseg mask)),
          land_cover_class (bincount_argmax (masked_vals aseg mask))) = some t →
      classify_region_change bseg aseg mask = t) ∧
    (change_rules
        (land_cover_class (bincount_argmax (masked_vals bseg mask)),
          land_cover_class (bincount_argmax (masked_vals aseg mask))) = none →
      ((classify_region_change bseg aseg mask = ChangeType.disaster_damage ↔
        ((masked_vals aseg mask).count 4 : ℚ) /
            ((masked_vals aseg mask).length : ℚ) -
          ((masked_vals bseg mask).count 4 : ℚ) /
            ((masked_vals bseg mask).length : ℚ) > 3/10 ∨
        ((masked_vals aseg mask).count 0 : ℚ) /
            ((masked_vals aseg mask).length : ℚ) -
          ((masked_vals bseg mask).count 0 : ℚ) /
            ((masked_vals bseg mask).length : ℚ) > 3/10) ∧
      (is_disaster_pattern (masked_vals bseg mask) (masked_vals aseg mask)
          = false →
        classify_region_change bseg aseg mask = ChangeType.no_change))) := by
  constructor
  · intro t ht
    simp only [classify_region_change, classify_vals, ht]
  · intro hno
    constructor
    · simp only [classify_region_change, classify_vals, hno]
      by_cases hp : is_disaster_pattern (masked_vals bseg mask)
          (masked_vals aseg mask) = true
      · rw [if_pos hp]
        exact iff_of_true rfl ((is_disaster_pattern_iff _ _).mp hp)
      · rw [if_neg hp]
        refine iff_of_false (by decide) ?_
        intro hcond
        exact hp ((is_disaster_pattern_iff _ _).mpr hcond)
    · intro hfalse
      simp only [classify_region_change, classify_vals, hno]
      rw [if_neg (by simp [hfalse])]

/-- C4 witness: an all-forest region that turns all-urban classifies as
urbanization through the rule table. -/
theorem C4_classify_region_change_witness :
    classify_region_change [[1]] [[2]] [[true]] = ChangeType.urbanization :=
  (C4_classify_region_change [[1]] [[2]] [[true]] (by decide) (by decide)).1
    ChangeType.urbanization (by decide)

/-- C6.  Over exact rational arithmetic, for positive image dimensions and
a proper bounds box (east > west, north > south) the pixel-to-geo map is
injective and composing it with the algebraic inverse returns the original
pixel exactly. -/
theorem C6_roundtrip (height width : ℚ) (b : GeoBounds)
    (hh : 0 < height) (hw : 0 < width)
    (hew : b.west < b.east) (hns : b.south < b.north) :
    (∀ x1 y1 x2 y2,
      pixel_to_geo height width b x1 y1 = pixel_to_geo height width b x2 y2 →
        x1 = x2 ∧ y1 = y2) ∧
    (∀ x y, geo_to_pixel height width b
        (pixel_to_geo height width b x y).1
        (pixel_to_geo height width b x y).2 = (x, y)) := by
  have hW : width ≠ 0 := ne_of_gt hw
  have hH : height ≠ 0 := ne_of_gt hh
  have hE : b.east - b.west ≠ 0 := ne_of_gt (sub_pos.mpr hew)
  have hN : b.north - b.south ≠ 0 := ne_of_gt (sub_pos.mpr hns)
  constructor
  · intro x1 y1 x2 y2 hxy
    have h1 := congrArg Prod.fst hxy
    have h2 := congrArg Prod.snd hxy
    simp only [pixel_to_geo] at h1 h2
    constructor
    · have h3 : x1 / width * (b.east - b.west) = x2 / width * (b.east - b.west) := by
        linarith
      have h4 : x1 / width = x2 / width := mul_right_cancel₀ hE h3
      field_simp at h4
      exact h4
    · have h3 : (1 - y1 / height) * (b.north - b.south) =
          (1 - y2 / height) * (b.north - b.south) := by
        linarith
      have h4 : 1 - y1 / height = 1 - y2 / height := mul_right_cancel₀ hN h3
      have h5 : y1 / height = y2 / height := by linarith
      field_simp at h5
      exact h5
  · intro x y
    simp only [pixel_to_geo, geo_to_pixel]
    refine Prod.ext ?_ ?_
    · show width * (b.west + x / width * (b.east - b.west) - b.west) /
        (b.east - b.west) = x
      field_simp
      ring
    · show height * (1 - (b.south + (1 - y / height) * (b.north - b.south)
        - b.south) / (b.north - b.south)) = y
      field_simp
      ring

/-- C6 witness: the round trip through pixel (3, 7) of the scenario-E
configuration. -/
theorem C6_roundtrip_witness :
    geo_to_pixel 100 100 bounds_ne
      (pixel_to_geo 100 100 bounds_ne 3 7).1
      (pixel_to_geo 100 100 bounds_ne 3 7).2 = (3, 7) :=
  (C6_roundtrip 100 100 bounds_ne (by norm_num) (by norm_num)
    (by norm_num [bounds_ne]) (by norm_num [bounds_ne])).2 3 7

/-- Skipping with continue inside a loop that appends on the kept branch is
a filter followed by the loop body. -/
theorem filterMap_if_eq {α β : Type} (p : α → Prop) [DecidablePred p]
    (f : α → β) (l : List α) :
    l.filterMap (fun r => if p r then none else some (f r)) =
      (l.filter (fun r => !decide (p r))).map f := by
  induction l with
  | nil => rfl
  | cons a t ih =>
      by_cases hp : p a
      · simp [hp, ih]
      · simp [hp, ih]

/-- The clamp min(0.95, max(0.3, c)) of _estimate_confidence lands in
[0.3, 0.95] for any argument, hence in [0, 1]. -/
theorem estimate_confidence_bounds (b a : List ℕ) :
    0 ≤ estimate_confidence b a ∧ estimate_confidence b a ≤ 1 := by
  unfold estimate_confidence
  constructor
  · exact le_min (by norm_num)
      (le_trans (by norm_num) (le_max_left _ _))
  · exact le_trans (min_le_left _ _) (by norm_num)

/-- Mean of a nonempty list of values in [0, 1] lies in [0, 1]. -/
theorem list_mean_bounds (xs : List ℚ) (hne : xs ≠ [])
    (h0 : ∀ x ∈ xs, 0 ≤ x) (h1 : ∀ x ∈ xs, x ≤ 1) :
    0 ≤ list_mean xs ∧ list_mean xs ≤ 1 := by
  have hl : 0 < (xs.length : ℚ) := by
    exact_mod_cast List.length_pos.mpr hne
  constructor
  · exact div_nonneg (List.sum_nonneg h0) hl.le
  · rw [list_mean, div_le_one hl]
    calc xs.sum ≤ xs.length • (1 : ℚ) := List.sum_le_card_nsmul xs 1 h1
    _ = (xs.length : ℚ) := by simp

/-- C8.  Every ChangeDetection returned by _detect_change_regions has
area_hectares at least the 0.1-hectare threshold and confidence in [0, 1]
(for a supplied per-pixel confidence map with values in [0, 1], or the
clamped consistency estimate otherwise); components below the threshold are
dropped by a pure filter, silently, and the survivors map through the
unchanged loop body. -/
theorem C8_detect_change_regions (before_seg after_seg : List (List ℕ))
    (confidence_scores : Option (ℕ × ℕ → ℚ)) (pixel_to_hectare_ratio : ℚ)
    (regions : List Region)
    (hne : ∀ r ∈ regions, r ≠ ([] : List (ℕ × ℕ)))
    (hconf : ∀ f, confidence_scores = some f → ∀ q : ℕ × ℕ, 0 ≤ f q ∧ f q ≤ 1) :
    (∀ d ∈ detect_change_regions before_seg after_seg confidence_scores
        pixel_to_hectare_ratio regions,
      1/10 ≤ d.area_hectares ∧ 0 ≤ d.confidence ∧ d.confidence ≤ 1) ∧
    detect_change_regions before_seg after_seg confidence_scores
        pixel_to_hectare_ratio regions =
      (regions.filter (fun r =>
          !decide (((List.length r : ℕ) : ℚ) * pixel_to_hectare_ratio < 1/10))).map
        (detection_of_region before_seg after_seg confidence_scores
          pixel_to_hectare_ratio) := by
  constructor
  · intro d hd
    rcases List.mem_filterMap.mp hd with ⟨r, hr, hif⟩
    by_cases harea : ((List.length r : ℕ) : ℚ) * pixel_to_hectare_ratio < 1/10
    · rw [if_pos harea] at hif
      exact absurd hif (by simp)
    · rw [if_neg harea] at hif
      injection hif with hdd
      subst hdd
      refine ⟨not_lt.mp harea, ?_⟩
      show 0 ≤ (detection_of_region before_seg after_seg confidence_scores
          pixel_to_hectare_ratio r).confidence ∧
        (detection_of_region before_seg after_seg confidence_scores
          pixel_to_hectare_ratio r).confidence ≤ 1
      cases hcs : confidence_scores with
      | none =>
          show 0 ≤ estimate_confidence (region_vals before_seg r)
              (region_vals after_seg r) ∧
            estimate_confidence (region_vals before_seg r)
              (region_vals after_seg r) ≤ 1
          exact estimate_confidence_bounds _ _
      | some f =>
          show 0 ≤ list_mean (List.map f r) ∧ list_mean (List.map f r) ≤ 1
          refine list_mean_bounds _ ?_ ?_ ?_
          · simp [hne r hr]
          · intro x hx
            rcases List.mem_map.mp hx with ⟨q, _, rfl⟩
            exact (hconf f hcs q).1
          · intro x hx
            rcases List.mem_map.mp hx with ⟨q, _, rfl⟩
            exact (hconf f hcs q).2
  · exact filterMap_if_eq _ _ regions

/-- C8 witness: a single one-pixel region at ratio 1 survives the filter
with in-range confidence. -/
theorem C8_detect_change_regions_witness :
    ∃ d ∈ detect_change_regions [[1]] [[2]] none 1 [[(0, 0)]],
      1/10 ≤ d.area_hectares ∧ 0 ≤ d.confidence ∧ d.confidence ≤ 1 := by
  refine ⟨detection_of_region [[1]] [[2]] none 1 [(0, 0)], ?_, ?_⟩
  · show detection_of_region [[1]] [[2]] none 1 [(0, 0)] ∈
      detect_change_regions [[1]] [[2]] none 1 [[(0, 0)]]
    unfold detect_change_regions
    norm_num
  · exact (C8_detect_change_regions [[1]] [[2]] none 1 [[(0, 0)]]
      (by simp) (by intro f h q; cases h)).1
      (detection_of_region [[1]] [[2]] none 1 [(0, 0)])
      (by unfold detect_change_regions; norm_num)

/-- Python max with key returns an element of its iterable. -/
theorem py_max_by_mem {α : Type} (f : α → ℕ) (b : α) (xs : List α) :
    py_max_by f b xs ∈ b :: xs := by
  induction xs generalizing b with
  | nil => simp [py_max_by]
  | cons x t ih =>
      simp only [py_max_by]
      by_cases h : f x > f b
      · rw [if_pos h]
        have := ih x
        simp only [List.mem_cons] at this ⊢
        tauto
      · rw [if_neg h]
        have := ih b
        simp only [List.mem_cons] at this ⊢
        tauto

/-- Python max with key attains the greatest key over its iterable. -/
theorem py_max_by_ge {α : Type} (f : α → ℕ) (b : α) (xs : List α) :
    ∀ a ∈ b :: xs, f a ≤ f (py_max_by f b xs) := by
  induction xs generalizing b with
  | nil =>
      intro a ha
      simp only [List.mem_cons, List.not_mem_nil, or_false] at ha
      subst ha
      simp [py_max_by]
  | cons x t ih =>
      intro a ha
      simp only [py_max_by]
      rcases List.mem_cons.mp ha with h1 | h2
      · subst h1
        by_cases h : f x > f a
        · rw [if_pos h]
          exact le_trans (le_of_lt h) (ih x x (List.mem_cons_self x t))
        · rw [if_neg h]
          exact ih a a (List.mem_cons_self a t)
      · rcases List.mem_cons.mp h2 with h3 | h4
        · subst h3
          by_cases h : f a > f b
          · rw [if_pos h]
            exact ih a a (List.mem_cons_self a t)
          · rw [if_neg h]
            exact le_trans (not_lt.mp h) (ih b b (List.mem_cons_self b t))
        · by_cases h : f x > f b
          · rw [if_pos h]
            exact ih x a (List.mem_cons_of_mem x h4)
          · rw [if_neg h]
            exact ih b a (List.mem_cons_of_mem b h4)

/-- first_occur preserves membership. -/
theorem mem_first_occur {α : Type} [DecidableEq α] (l : List α) (x : α) :
    x ∈ first_occur l ↔ x ∈ l := by
  induction l with
  | nil => simp [first_occur]
  | cons a l ih =>
      rw [first_occur]
      constructor
      · intro h
        rcases List.mem_cons.mp h with rfl | h2
        · exact List.mem_cons_self _ _
        · exact List.mem_cons_of_mem _ (ih.mp (List.mem_of_mem_filter h2))
      · intro h
        rcases List.mem_cons.mp h with rfl | h2
        · exact List.mem_cons_self _ _
        · by_cases hxa : x = a
          · subst hxa
            exact List.mem_cons_self _ _
          · exact List.mem_cons_of_mem _
              (List.mem_filter.mpr ⟨ih.mpr h2, by simp [hxa]⟩)

/-- first_occur has no duplicates. -/
theorem first_occur_nodup {α : Type} [DecidableEq α] (l : List α) :
    (first_occur l).Nodup := by
  induction l with
  | nil => simp [first_occur]
  | cons a l ih =>
      rw [first_occur]
      refine List.nodup_cons.mpr ⟨?_, List.Nodup.filter _ ih⟩
      intro hmem
      have := List.mem_filter.mp hmem
      simp at this

/-- Splitting a list into the per-key filters over a duplicate-free key
cover is a permutation of the list. -/
theorem flatten_filter_perm {α K : Type} [DecidableEq K] (key : α → K) :
    ∀ (ks : List K) (xs : List α), ks.Nodup → (∀ x ∈ xs, key x ∈ ks) →
      List.Perm
        ((ks.map (fun l => xs.filter (fun x => decide (key x = l)))).flatten)
        xs := by
  intro ks
  induction ks with
  | nil =>
      intro xs _ hcov
      cases xs with
      | nil => simp
      | cons x t => exact absurd (hcov x (List.mem_cons_self x t)) (by simp)
  | cons l ks ih =>
      intro xs hnd hcov
      simp only [List.map_cons, List.flatten_cons]
      have hl : l ∉ ks := (List.nodup_cons.mp hnd).1
      have hstep : ∀ l2 ∈ ks,
          xs.filter (fun x => decide (key x = l2)) =
            (xs.filter (fun x => !decide (key x = l))).filter
              (fun x => decide (key x = l2)) := by
        intro l2 hl2
        rw [List.filter_filter]
        apply List.filter_congr
        intro x _
        have hll : l2 ≠ l := fun hh => hl (hh ▸ hl2)
        by_cases h : key x = l2
        · simp [h, hll]
        · simp [h]
      have hmapeq : ks.map (fun l2 => xs.filter (fun x => decide (key x = l2))) =
          ks.map (fun l2 => (xs.filter (fun x => !decide (key x = l))).filter
            (fun x => decide (key x = l2))) :=
        List.map_congr_left hstep
      rw [hmapeq]
      have hcov2 : ∀ x ∈ xs.filter (fun x => !decide (key x = l)), key x ∈ ks := by
        intro x hx
        rcases List.mem_filter.mp hx with ⟨hx1, hx2⟩
        rcases List.mem_cons.mp (hcov x hx1) with heq | hin
        · simp [heq] at hx2
        · exact hin
      have hperm2 := ih (xs.filter (fun x => !decide (key x = l)))
        (List.nodup_cons.mp hnd).2 hcov2
      exact (List.Perm.append_left _ hperm2).trans
        (List.filter_append_perm _ xs)

/-- The dominant type of a nonempty type list is one of the types and has
maximal multiplicity. -/
theorem dominant_type_spec (ts : List String) (h : ts ≠ []) :
    dominant_type_of ts ∈ ts ∧
      ∀ t ∈ ts, ts.count t ≤ ts.count (dominant_type_of ts) := by
  unfold dominant_type_of
  cases hfo : first_occur ts with
  | nil =>
      exfalso
      cases ts with
      | nil => exact h rfl
      | cons a t =>
          have : a ∈ first_occur (a :: t) :=
            (mem_first_occur _ _).mpr (List.mem_cons_self a t)
          rw [hfo] at this
          exact List.not_mem_nil a this
  | cons k ks =>
      constructor
      · have := py_max_by_mem (fun x => ts.count x) k ks
        rw [← hfo] at this
        exact (mem_first_occur _ _).mp this
      · intro t ht
        have ht2 : t ∈ k :: ks := by
          rw [← hfo]
          exact (mem_first_occur _ _).mpr ht
        exact py_max_by_ge (fun x => ts.count x) k ks t ht2

/-- The maximum severity of a nonempty severity list is one of the
severities and has maximal rank. -/
theorem max_severity_spec (ss : List String) (h : ss ≠ []) :
    max_severity_of ss ∈ ss ∧
      ∀ s ∈ ss, severity_rank s ≤ severity_rank (max_severity_of ss) := by
  unfold max_severity_of
  cases ss with
  | nil => exact absurd rfl h
  | cons s t =>
      exact ⟨py_max_by_mem severity_rank s t,
        fun a ha => py_max_by_ge severity_rank s t a ha⟩

/-- When no label is the noise label -1, every group comes from the cluster
branch. -/
theorem cluster_summaries_of_no_noise (dets : List ClusterInput)
    (labels : List ℤ) (hpos : ∀ l ∈ labels, l ≠ -1) :
    cluster_summaries dets labels =
      (first_occur labels).map (fun l => cluster_group
        (((labels.zip dets).filter (fun p => p.1 = l)).map Prod.snd)) := by
  unfold cluster_summaries
  have hks : ∀ l ∈ first_occur labels, l ≠ -1 := by
    intro l hl
    exact hpos l ((mem_first_occur _ _).mp hl)
  generalize first_occur labels = ks at hks ⊢
  induction ks with
  | nil => rfl
  | cons k ks ih =>
      rw [List.flatMap_cons, List.map_cons]
      rw [if_neg (hks k (List.mem_cons_self k ks))]
      rw [ih (fun l hl => hks l (List.mem_cons_of_mem k hl))]
      rfl

/-- A member pair exists for every label occurring in an equal-length
label list. -/
theorem exists_pair_of_mem_labels {labels : List ℤ}
    {dets : List ClusterInput} (hlen : labels.length = dets.length)
    {l : ℤ} (hl : l ∈ labels) :
    ∃ p ∈ labels.zip dets, p.1 = l := by
  have hfst : (labels.zip dets).map Prod.fst = labels :=
    List.map_fst_zip labels dets (le_of_eq hlen)
  rw [← hfst] at hl
  rcases List.mem_map.mp hl with ⟨p, hp, hpl⟩
  exact ⟨p, hp, hpl⟩

/-- Every group of type "cluster" produced by the grouping tail of
cluster_nearby_changes, for any DBSCAN labelling of the same length as the
detection list, is nonempty and aggregates its members per source. -/
theorem cluster_summaries_aggregates (dets : List ClusterInput) (labels : List ℤ)
    (hlen : labels.length = dets.length) (g : ClusterGroup)
    (hg : g ∈ cluster_summaries dets labels)
    (ht : g.group_type = "cluster") :
    g.detections ≠ [] ∧
    g.count = g.detections.length ∧
    g.total_area_hectares = (g.detections.map (fun d => d.area_hectares)).sum ∧
    g.avg_confidence = (g.detections.map (fun d => d.confidence)).sum /
      (g.detections.length : ℚ) ∧
    g.dominant_change_type ∈ g.detections.map (fun d => d.change_type) ∧
    (∀ t ∈ g.detections.map (fun d => d.change_type),
      (g.detections.map (fun d => d.change_type)).count t ≤
        (g.detections.map (fun d => d.change_type)).count
          g.dominant_change_type) ∧
    g.max_severity ∈ g.detections.map (fun d => d.severity) ∧
    (∀ s ∈ g.detections.map (fun d => d.severity),
      severity_rank s ≤ severity_rank g.max_severity) := by
  unfold cluster_summaries at hg
  rcases List.mem_flatMap.mp hg with ⟨l, hlks, hgin⟩
  by_cases hneg : l = -1
  · rw [if_pos hneg] at hgin
    rcases List.mem_map.mp hgin with ⟨d, _, hgd⟩
    rw [← hgd] at ht
    simp [individual_group] at ht
  · rw [if_neg hneg] at hgin
    have hgeq : g = cluster_group
        (((labels.zip dets).filter (fun p => p.1 = l)).map Prod.snd) := by
      simpa using hgin
    have hlmem : l ∈ labels := (mem_first_occur _ _).mp hlks
    rcases exists_pair_of_mem_labels hlen hlmem with ⟨p, hp, hpl⟩
    have hmem : p.2 ∈ ((labels.zip dets).filter (fun q => q.1 = l)).map
        Prod.snd :=
      List.mem_map.mpr ⟨p, List.mem_filter.mpr ⟨hp, by simp [hpl]⟩, rfl⟩
    subst hgeq
    have hne : (((labels.zip dets).filter (fun p => p.1 = l)).map Prod.snd)
        ≠ [] := by
      intro hnil
      rw [hnil] at hmem
      exact List.not_mem_nil _ hmem
    refine ⟨hne, rfl, rfl, rfl, ?_, ?_, ?_, ?_⟩
    · have := (dominant_type_spec
        ((((labels.zip dets).filter (fun p => p.1 = l)).map Prod.snd).map
          (fun d => d.change_type)) (by simpa using hne)).1
      simpa [cluster_group] using this
    · intro t htmem
      have := (dominant_type_spec
        ((((labels.zip dets).filter (fun p => p.1 = l)).map Prod.snd).map
          (fun d => d.change_type)) (by simpa using hne)).2 t
        (by simpa [cluster_group] using htmem)
      simpa [cluster_group] using this
    · have := (max_severity_spec
        ((((labels.zip dets).filter (fun p => p.1 = l)).map Prod.snd).map
          (fun d => d.severity)) (by simpa using hne)).1
      simpa [cluster_group] using this
    · intro s hsmem
      have := (max_severity_spec
        ((((labels.zip dets).filter (fun p => p.1 = l)).map Prod.snd).map
          (fun d => d.severity)) (by simpa using hne)).2 s
        (by simpa [cluster_group] using hsmem)
      simpa [cluster_group] using this

/-- One propagation step keeps the label-vector length. -/
theorem dbscan_step_length (pts : List (ℚ × ℚ)) (eps : ℚ) (ls : List ℕ) :
    (dbscan_step pts eps ls).length = pts.length := by
  simp [dbscan_step]

/-- Iterated propagation keeps the label-vector length. -/
theorem dbscan_iter_length (pts : List (ℚ × ℚ)) (eps : ℚ) :
    ∀ k, (dbscan_iter pts eps k).length = pts.length
  | 0 => by simp [dbscan_iter]
  | k + 1 => by simp [dbscan_iter, dbscan_step]

/-- The DBSCAN model labels every point: one label per point. -/
theorem dbscan_labels_length (pts : List (ℚ × ℚ)) (eps : ℚ) :
    (dbscan_labels pts eps).length = pts.length :=
  dbscan_iter_length pts eps pts.length

/-- C7.  Every non-empty group of type "cluster" returned by
cluster_nearby_changes aggregates its members exactly as claimed: count is
the member count, total area is the sum of member areas, average
confidence is the arithmetic mean of member confidences, the dominant
change type is a member type of maximal multiplicity, and the maximum
severity is a member severity of maximal rank under the order
low < medium < high < critical (severity_rank, with names outside the
scale at rank 0 as in the source). -/
theorem C7_cluster_aggregates (dets : List ClusterInput)
    (max_distance_meters : ℚ) (g : ClusterGroup)
    (hg : g ∈ cluster_nearby_changes dets max_distance_meters)
    (ht : g.group_type = "cluster") :
    g.detections ≠ [] ∧
    g.count = g.detections.length ∧
    g.total_area_hectares = (g.detections.map (fun d => d.area_hectares)).sum ∧
    g.avg_confidence = (g.detections.map (fun d => d.confidence)).sum /
      (g.detections.length : ℚ) ∧
    g.dominant_change_type ∈ g.detections.map (fun d => d.change_type) ∧
    (∀ t ∈ g.detections.map (fun d => d.change_type),
      (g.detections.map (fun d => d.change_type)).count t ≤
        (g.detections.map (fun d => d.change_type)).count
          g.dominant_change_type) ∧
    g.max_severity ∈ g.detections.map (fun d => d.severity) ∧
    (∀ s ∈ g.detections.map (fun d => d.severity),
      severity_rank s ≤ severity_rank g.max_severity) := by
  by_cases hne : dets = []
  · subst hne
    unfold cluster_nearby_changes at hg
    rw [if_pos rfl] at hg
    exact absurd hg (List.not_mem_nil g)
  · have hg2 : g ∈ cluster_summaries dets
        ((dbscan_labels (dets.map bbox_center)
          (max_distance_meters / 10)).map Int.ofNat) := by
      unfold cluster_nearby_changes at hg
      rw [if_neg hne] at hg
      exact hg
    refine cluster_summaries_aggregates dets _ ?_ g hg2 ht
    rw [List.length_map, dbscan_labels_length, List.length_map]

/-- Member lists of cluster groups flatten back out of a mapped group
list. -/
theorem flatMap_cluster_detections (F : ℤ → List ClusterInput)
    (ks : List ℤ) :
    (ks.map (fun l => cluster_group (F l))).flatMap (fun g => g.detections) =
      (ks.map F).flatten := by
  induction ks with
  | nil => rfl
  | cons k ks ih =>
      rw [List.map_cons, List.flatMap_cons, ih, List.map_cons,
        List.flatten_cons]
      rfl

/-- Counts of cluster groups are the member-list lengths. -/
theorem map_cluster_count (F : ℤ → List ClusterInput) (ks : List ℤ) :
    (ks.map (fun l => cluster_group (F l))).map (fun g => g.count) =
      ks.map (fun l => (F l).length) := by
  rw [List.map_map]
  rfl

/-- C10.  With min_samples = 1 (modelled: no point is ever labelled -1),
for every nonempty detection list each detection lands in exactly one
returned group (the concatenation of the groups' member lists is a
permutation of the input), the group counts sum to the number of input
detections, and the noise branch is unreachable: every returned group has
type "cluster". -/
theorem C10_no_noise (dets : List ClusterInput) (max_distance_meters : ℚ)
    (hne : dets ≠ []) :
    (∀ g ∈ cluster_nearby_changes dets max_distance_meters,
      g.group_type = "cluster") ∧
    ((cluster_nearby_changes dets max_distance_meters).map
      (fun g => g.count)).sum = dets.length ∧
    List.Perm ((cluster_nearby_changes dets max_distance_meters).flatMap
      (fun g => g.detections)) dets := by
  have hlen : ((dbscan_labels (dets.map bbox_center)
      (max_distance_meters / 10)).map Int.ofNat).length = dets.length := by
    rw [List.length_map, dbscan_labels_length, List.length_map]
  set labels := (dbscan_labels (dets.map bbox_center)
    (max_distance_meters / 10)).map Int.ofNat with hlabels
  have hpos : ∀ l ∈ labels, l ≠ -1 := by
    intro l hl
    rcases List.mem_map.mp hl with ⟨k, _, rfl⟩
    have hk : (0 : ℤ) ≤ Int.ofNat k := Int.ofNat_nonneg k
    omega
  set F := fun l => (((labels.zip dets)).filter
    (fun p => p.1 = l)).map Prod.snd with hF
  have hrw : cluster_nearby_changes dets max_distance_meters =
      (first_occur labels).map (fun l => cluster_group (F l)) := by
    unfold cluster_nearby_changes
    rw [if_neg hne]
    exact cluster_summaries_of_no_noise _ _ hpos
  rw [hrw]
  have hcov : ∀ p ∈ labels.zip dets,
      (fun q : ℤ × ClusterInput => q.1) p ∈ first_occur labels :=
    fun p hp => (mem_first_occur _ _).mpr (List.of_mem_zip hp).1
  have hperm0 := flatten_filter_perm (fun q : ℤ × ClusterInput => q.1)
    (first_occur labels) (labels.zip dets) (first_occur_nodup labels) hcov
  have hmapF : (first_occur labels).map F =
      ((first_occur labels).map (fun l => (labels.zip dets).filter
        (fun p => p.1 = l))).map (List.map Prod.snd) := by
    rw [List.map_map]
    rfl
  have hFperm : List.Perm (((first_occur labels).map F).flatten) dets := by
    rw [hmapF, ← List.map_flatten]
    have h2 := hperm0.map Prod.snd
    rwa [List.map_snd_zip labels dets (le_of_eq hlen.symm)] at h2
  refine ⟨?_, ?_, ?_⟩
  · intro g hg
    rcases List.mem_map.mp hg with ⟨l, _, rfl⟩
    rfl
  · rw [map_cluster_count]
    have hml : (first_occur labels).map (fun l => (F l).length) =
        ((first_occur labels).map F).map List.length := by
      rw [List.map_map]
      rfl
    rw [hml, ← List.length_flatten]
    exact hFperm.length_eq
  · rw [flatMap_cluster_detections]
    exact hFperm

/-- Evaluation of the demo clustering: the two centre points (1, 1) and
(2, 1) fall within eps = 100 pixels of each other, so DBSCAN yields the
single label vector [0, 0] and one cluster group of both detections. -/
theorem cluster_demo_eval :
    cluster_nearby_changes [det_a, det_b] 1000 =
      [cluster_group [det_a, det_b]] := by
  have hd : dbscan_labels (List.map bbox_center [det_a, det_b]) (1000 / 10)
      = [0, 0] := by
    norm_num [dbscan_labels, dbscan_iter, dbscan_step, within_eps,
      List.range_succ, List.filterMap_cons, List.getD, List.foldl,
      bbox_center, det_a, det_b]
  unfold cluster_nearby_changes
  rw [if_neg (by simp)]
  show cluster_summaries [det_a, det_b]
    (List.map Int.ofNat (dbscan_labels (List.map bbox_center [det_a, det_b])
      (1000 / 10))) = [cluster_group [det_a, det_b]]
  rw [hd]
  rfl

/-- The demo group is the cluster of both demo detections. -/
theorem cluster_demo_group_eval :
    cluster_demo_group = cluster_group [det_a, det_b] := by
  simp only [cluster_demo_group, cluster_demo, cluster_demo_eval,
    List.headD_cons]

/-- C7 witness: the demo cluster of two detections totals the member
areas. -/
theorem C7_cluster_aggregates_witness :
    cluster_demo_group.total_area_hectares =
      (cluster_demo_group.detections.map (fun d => d.area_hectares)).sum :=
  (C7_cluster_aggregates [det_a, det_b] 1000 cluster_demo_group
    (by
      rw [cluster_demo_group_eval, cluster_demo_eval]
      exact List.mem_singleton_self _)
    (by rw [cluster_demo_group_eval]; rfl)).2.2.1

/-- C10 witness: the two demo detections produce groups whose counts sum
to two. -/
theorem C10_no_noise_witness :
    ((cluster_nearby_changes [det_a, det_b] 1000).map
      (fun g => g.count)).sum = [det_a, det_b].length :=
  (C10_no_noise [det_a, det_b] 1000 (by simp)).2.1

end GeoShiftSpy
